import Mathlib

/-!
Shallow embedding of `pytorch_lightning/trainer/progress.py`.

The Python module is a hierarchical progress-counter tree.  Counters are
Python `Optional[int]` fields: `None` marks a field as disabled.  We embed
counters as `Option Int`.  Mutating methods become pure functions returning
the updated value; the `__setattr__` guard, which raises `AttributeError`,
becomes a function into `Except String _`; `__setstate__` on composites,
which can raise `KeyError` when a mapping key is missing, also returns
`Except String _`.  A persisted mapping (a plain Python dict produced by
`asdict`) is embedded as a structure whose every field is wrapped in one
more `Option`: the outer `none` means the key is absent from the dict.
`Tracker.__setstate__` is `self.__dict__.update(state)`: present keys
overwrite the field, absent keys leave it untouched, and no error is ever
raised - in particular it bypasses the `__setattr__` guard.
-/

/-- One of the four stage fields of a `Tracker`:
`ready` / `started` / `processed` / `completed`. -/
inductive Stage where
  | ready
  | started
  | processed
  | completed
deriving DecidableEq, Repr

/-- `Tracker`: four-stage event counter.  A field holding `none` is
disabled ("meant to be unused").  Defaults mirror the dataclass defaults:
every field starts at `0` (enabled). -/
structure Tracker where
  ready : Option Int := some 0
  started : Option Int := some 0
  processed : Option Int := some 0
  completed : Option Int := some 0
deriving DecidableEq, Repr

/-- Read a stage field of a `Tracker` (Python `getattr(self, key)`). -/
def Tracker.get (t : Tracker) : Stage → Option Int
  | Stage.ready => t.ready
  | Stage.started => t.started
  | Stage.processed => t.processed
  | Stage.completed => t.completed

/-- Overwrite a stage field of a `Tracker` unconditionally (the raw store
performed by `object.__setattr__`). -/
def Tracker.set (t : Tracker) (k : Stage) (v : Option Int) : Tracker :=
  match k with
  | Stage.ready => { t with ready := v }
  | Stage.started => { t with started := v }
  | Stage.processed => { t with processed := v }
  | Stage.completed => { t with completed := v }

/-- `Tracker.__setattr__`: raises `AttributeError` when the current value of
the targeted field is `None` (the field is disabled); otherwise stores the
attempted value, whatever it is - including `None` itself. -/
def Tracker.setattr (t : Tracker) (k : Stage) (v : Option Int) :
    Except String Tracker :=
  if t.get k = none then
    Except.error "AttributeError: the attribute is meant to be unused"
  else
    Except.ok (t.set k v)

/-- `Tracker.reset`: zero every enabled field; disabled fields are not
touched (each write is guarded by `is not None`, so the `__setattr__`
guard never fires here). -/
def Tracker.reset (t : Tracker) : Tracker :=
  let t1 := if t.ready.isSome then { t with ready := some 0 } else t
  let t2 := if t1.started.isSome then { t1 with started := some 0 } else t1
  let t3 := if t2.processed.isSome then { t2 with processed := some 0 } else t2
  if t3.completed.isSome then { t3 with completed := some 0 } else t3

/-- `Tracker.reset_on_restart`: compute the carried-forward value
(`completed` if `processed` is disabled, else `processed`) and store it in
every enabled field. -/
def Tracker.reset_on_restart (t : Tracker) : Tracker :=
  let value := if t.processed = none then t.completed else t.processed
  let t1 := if t.ready.isSome then { t with ready := value } else t
  let t2 := if t1.started.isSome then { t1 with started := value } else t1
  let t3 := if t2.processed.isSome then { t2 with processed := value } else t2
  if t3.completed.isSome then { t3 with completed := value } else t3

/-- A persisted `Tracker` mapping.  The outer `Option` is key presence:
`none` means the key is absent from the dict. -/
structure TrackerState where
  ready : Option (Option Int) := none
  started : Option (Option Int) := none
  processed : Option (Option Int) := none
  completed : Option (Option Int) := none
deriving DecidableEq, Repr

/-- `Tracker.state_dict` (= `asdict`): every key present with its value,
disabled fields carried as the explicit null marker. -/
def Tracker.state_dict (t : Tracker) : TrackerState :=
  { ready := some t.ready, started := some t.started,
    processed := some t.processed, completed := some t.completed }

/-- `Tracker.__setstate__`, inherited from `_DataclassStateDictMixin`:
`self.__dict__.update(state)`.  Keys present in the mapping overwrite the
field; absent keys keep the old value.  This write path does not go through
`__setattr__` and can never raise. -/
def Tracker.setstate (t : Tracker) (s : TrackerState) : Tracker :=
  { ready := s.ready.getD t.ready,
    started := s.started.getD t.started,
    processed := s.processed.getD t.processed,
    completed := s.completed.getD t.completed }

/-- `Tracker.from_state_dict`: build a default instance, then apply the
mapping via `__setstate__`. -/
def Tracker.from_state_dict (s : TrackerState) : Tracker :=
  Tracker.setstate {} s

/-- Two `Tracker`s share the same enabled/disabled partition. -/
def Tracker.samePartition (a b : Tracker) : Prop :=
  (a.ready = none ↔ b.ready = none) ∧
  (a.started = none ↔ b.started = none) ∧
  (a.processed = none ↔ b.processed = none) ∧
  (a.completed = none ↔ b.completed = none)

instance (a b : Tracker) : Decidable (a.samePartition b) := by
  unfold Tracker.samePartition
  infer_instance

/-- Helper: require a key in a persisted mapping; a missing key is a
Python `KeyError`. -/
def req {α : Type} (o : Option α) (k : String) : Except String α :=
  match o with
  | some v => Except.ok v
  | none => Except.error ("KeyError: " ++ k)

/-- `Progress`: a `total` (lifetime) and a `current` (per-window) `Tracker`.
Defaults mirror the dataclass default factories. -/
structure Progress where
  total : Tracker := {}
  current : Tracker := {}
deriving DecidableEq, Repr

/-- `Progress.increment_ready`: if `ready` is disabled on either `Tracker`,
silently do nothing; otherwise advance both by one. -/
def Progress.increment_ready (p : Progress) : Progress :=
  match p.total.ready, p.current.ready with
  | some a, some b =>
    { p with total := { p.total with ready := some (a + 1) },
             current := { p.current with ready := some (b + 1) } }
  | _, _ => p

/-- `Progress.increment_started`: see `Progress.increment_ready`. -/
def Progress.increment_started (p : Progress) : Progress :=
  match p.total.started, p.current.started with
  | some a, some b =>
    { p with total := { p.total with started := some (a + 1) },
             current := { p.current with started := some (b + 1) } }
  | _, _ => p

/-- `Progress.increment_processed`: see `Progress.increment_ready`. -/
def Progress.increment_processed (p : Progress) : Progress :=
  match p.total.processed, p.current.processed with
  | some a, some b =>
    { p with total := { p.total with processed := some (a + 1) },
             current := { p.current with processed := some (b + 1) } }
  | _, _ => p

/-- `Progress.increment_completed`: see `Progress.increment_ready`. -/
def Progress.increment_completed (p : Progress) : Progress :=
  match p.total.completed, p.current.completed with
  | some a, some b =>
    { p with total := { p.total with completed := some (a + 1) },
             current := { p.current with completed := some (b + 1) } }
  | _, _ => p

/-- `Progress.from_defaults(**kwargs)`: both `Tracker`s are built from the
same keyword overrides, here represented by the four resulting field
values. -/
def Progress.from_defaults (r s pr c : Option Int) : Progress :=
  { total := { ready := r, started := s, processed := pr, completed := c },
    current := { ready := r, started := s, processed := pr, completed := c } }

/-- A persisted `Progress` mapping: keys `total` and `current`, each a
`Tracker` mapping; the outer `Option` is key presence. -/
structure ProgressState where
  total : Option TrackerState := none
  current : Option TrackerState := none
deriving DecidableEq, Repr

/-- `Progress.state_dict` (= `asdict`): both keys present. -/
def Progress.state_dict (p : Progress) : ProgressState :=
  { total := some p.total.state_dict, current := some p.current.state_dict }

/-- `Progress.__setstate__`: reads `state["total"]` and `state["current"]`
(raising `KeyError` when absent) and applies each to the corresponding
child `Tracker`. -/
def Progress.setstate (p : Progress) (s : ProgressState) :
    Except String Progress := do
  let st ← req s.total "total"
  let t := p.total.setstate st
  let sc ← req s.current "current"
  let c := p.current.setstate sc
  pure { p with total := t, current := c }

/-- `Progress.from_state_dict`: default instance, then `__setstate__`. -/
def Progress.from_state_dict (s : ProgressState) : Except String Progress :=
  Progress.setstate {} s

/-- `BatchProgress`: a named specialization of `Progress` with no added
fields or behavior. -/
abbrev BatchProgress := Progress

/-- `EpochProgress`: a `Progress` plus a dataloader index and a nested
`BatchProgress`. -/
structure EpochProgress extends Progress where
  dataloader_idx : Int := 0
  batch : BatchProgress := {}
deriving DecidableEq, Repr

/-- `EpochProgress.reset_on_epoch`: resets only `batch.current`. -/
def EpochProgress.reset_on_epoch (e : EpochProgress) : EpochProgress :=
  { e with batch := { e.batch with current := e.batch.current.reset } }

/-- A persisted `EpochProgress` mapping: the base `Progress` keys plus
`dataloader_idx` and `batch`. -/
structure EpochProgressState where
  total : Option TrackerState := none
  current : Option TrackerState := none
  dataloader_idx : Option Int := none
  batch : Option ProgressState := none
deriving DecidableEq, Repr

/-- `EpochProgress.state_dict` (= `asdict`). -/
def EpochProgress.state_dict (e : EpochProgress) : EpochProgressState :=
  { total := some e.total.state_dict, current := some e.current.state_dict,
    dataloader_idx := some e.dataloader_idx,
    batch := some (Progress.state_dict e.batch) }

/-- `EpochProgress.__setstate__`: `super().__setstate__(state)` (which reads
`total` and `current`), then restore `batch` from `state["batch"]` and
`dataloader_idx` from `state["dataloader_idx"]`. -/
def EpochProgress.setstate (e : EpochProgress) (s : EpochProgressState) :
    Except String EpochProgress := do
  let pr ← Progress.setstate e.toProgress { total := s.total, current := s.current }
  let sb ← req s.batch "batch"
  let b ← Progress.setstate e.batch sb
  let di ← req s.dataloader_idx "dataloader_idx"
  pure { e with toProgress := pr, batch := b, dataloader_idx := di }

/-- `EpochProgress.from_state_dict`. -/
def EpochProgress.from_state_dict (s : EpochProgressState) :
    Except String EpochProgress :=
  EpochProgress.setstate {} s

/-- `OptimizerProgress`: `step` and `zero_grad` `Progress`es, both with the
`processed` stage disabled by the default factory. -/
structure OptimizerProgress where
  step : Progress := Progress.from_defaults (some 0) (some 0) none (some 0)
  zero_grad : Progress := Progress.from_defaults (some 0) (some 0) none (some 0)
deriving DecidableEq, Repr

/-- `OptimizerProgress.reset_on_epoch`: resets `current` of both `step` and
`zero_grad`. -/
def OptimizerProgress.reset_on_epoch (o : OptimizerProgress) : OptimizerProgress :=
  { o with step := { o.step with current := o.step.current.reset },
           zero_grad := { o.zero_grad with current := o.zero_grad.current.reset } }

/-- A persisted `OptimizerProgress` mapping. -/
structure OptimizerProgressState where
  step : Option ProgressState := none
  zero_grad : Option ProgressState := none
deriving DecidableEq, Repr

/-- `OptimizerProgress.state_dict` (= `asdict`). -/
def OptimizerProgress.state_dict (o : OptimizerProgress) : OptimizerProgressState :=
  { step := some o.step.state_dict, zero_grad := some o.zero_grad.state_dict }

/-- `OptimizerProgress.__setstate__`: restores `step` then `zero_grad`. -/
def OptimizerProgress.setstate (o : OptimizerProgress) (s : OptimizerProgressState) :
    Except String OptimizerProgress := do
  let ss ← req s.step "step"
  let st ← Progress.setstate o.step ss
  let sz ← req s.zero_grad "zero_grad"
  let zg ← Progress.setstate o.zero_grad sz
  pure { step := st, zero_grad := zg }

/-- `OptimizerProgress.from_state_dict`. -/
def OptimizerProgress.from_state_dict (s : OptimizerProgressState) :
    Except String OptimizerProgress :=
  OptimizerProgress.setstate {} s

/-- `OptimizationProgress`: optimizer index, an `OptimizerProgress`, and a
scheduler `Progress` with `started` and `processed` disabled. -/
structure OptimizationProgress where
  optimizer_idx : Int := 0
  optimizer : OptimizerProgress := {}
  scheduler : Progress := Progress.from_defaults (some 0) none none (some 0)
deriving DecidableEq, Repr

/-- Derived property `optimizer_steps` = `optimizer.step.total.completed`. -/
def OptimizationProgress.optimizer_steps (o : OptimizationProgress) : Option Int :=
  o.optimizer.step.total.completed

/-- Derived property `scheduler_steps` = `scheduler.total.completed`. -/
def OptimizationProgress.scheduler_steps (o : OptimizationProgress) : Option Int :=
  o.scheduler.total.completed

/-- `OptimizationProgress.reset_on_epoch`: cascades to
`optimizer.reset_on_epoch()` and resets `scheduler.current`. -/
def OptimizationProgress.reset_on_epoch (o : OptimizationProgress) :
    OptimizationProgress :=
  { o with optimizer := o.optimizer.reset_on_epoch,
           scheduler := { o.scheduler with current := o.scheduler.current.reset } }

/-- A persisted `OptimizationProgress` mapping. -/
structure OptimizationProgressState where
  optimizer_idx : Option Int := none
  optimizer : Option OptimizerProgressState := none
  scheduler : Option ProgressState := none
deriving DecidableEq, Repr

/-- `OptimizationProgress.state_dict` (= `asdict`). -/
def OptimizationProgress.state_dict (o : OptimizationProgress) :
    OptimizationProgressState :=
  { optimizer_idx := some o.optimizer_idx,
    optimizer := some o.optimizer.state_dict,
    scheduler := some o.scheduler.state_dict }

/-- `OptimizationProgress.__setstate__`: restores `optimizer`, `scheduler`,
then `optimizer_idx`. -/
def OptimizationProgress.setstate (o : OptimizationProgress)
    (s : OptimizationProgressState) : Except String OptimizationProgress := do
  let so ← req s.optimizer "optimizer"
  let op ← OptimizerProgress.setstate o.optimizer so
  let sc ← req s.scheduler "scheduler"
  let sch ← Progress.setstate o.scheduler sc
  let oi ← req s.optimizer_idx "optimizer_idx"
  pure { optimizer_idx := oi, optimizer := op, scheduler := sch }

/-- `OptimizationProgress.from_state_dict`. -/
def OptimizationProgress.from_state_dict (s : OptimizationProgressState) :
    Except String OptimizationProgress :=
  OptimizationProgress.setstate {} s

/-- `EpochLoopProgress`: wraps one `EpochProgress` named `epoch`. -/
structure EpochLoopProgress where
  epoch : EpochProgress := {}
deriving DecidableEq, Repr

/-- Derived property `total_epoch_completed` = `epoch.total.completed`. -/
def EpochLoopProgress.total_epoch_completed (l : EpochLoopProgress) : Option Int :=
  l.epoch.total.completed

/-- `EpochLoopProgress.reset_on_epoch`: `epoch.reset_on_epoch()` then
`epoch.current.reset()`. -/
def EpochLoopProgress.reset_on_epoch (l : EpochLoopProgress) : EpochLoopProgress :=
  let e := l.epoch.reset_on_epoch
  { l with epoch := { e with current := e.current.reset } }

/-- `EpochLoopProgress.increment_epoch_completed`:
`epoch.increment_completed()` then `self.reset_on_epoch()`. -/
def EpochLoopProgress.increment_epoch_completed (l : EpochLoopProgress) :
    EpochLoopProgress :=
  EpochLoopProgress.reset_on_epoch
    { l with epoch := { l.epoch with toProgress := l.epoch.toProgress.increment_completed } }

/-- A persisted `EpochLoopProgress` mapping. -/
structure EpochLoopProgressState where
  epoch : Option EpochProgressState := none
deriving DecidableEq, Repr

/-- `EpochLoopProgress.state_dict` (= `asdict`). -/
def EpochLoopProgress.state_dict (l : EpochLoopProgress) : EpochLoopProgressState :=
  { epoch := some l.epoch.state_dict }

/-- `EpochLoopProgress.__setstate__`: restores `epoch`. -/
def EpochLoopProgress.setstate (l : EpochLoopProgress) (s : EpochLoopProgressState) :
    Except String EpochLoopProgress := do
  let se ← req s.epoch "epoch"
  let e ← EpochProgress.setstate l.epoch se
  pure { epoch := e }

/-- `EpochLoopProgress.from_state_dict`. -/
def EpochLoopProgress.from_state_dict (s : EpochLoopProgressState) :
    Except String EpochLoopProgress :=
  EpochLoopProgress.setstate {} s

/-- `TrainingValLoopPorgress` (name as spelled in the source): an
`EpochLoopProgress` plus the externally-owned `should_check_val` flag. -/
structure TrainingValLoopPorgress extends EpochLoopProgress where
  should_check_val : Bool := false
deriving DecidableEq, Repr

/-- A persisted `TrainingValLoopPorgress` mapping. -/
structure TrainingValLoopPorgressState where
  epoch : Option EpochProgressState := none
  should_check_val : Option Bool := none
deriving DecidableEq, Repr

/-- `TrainingValLoopPorgress.state_dict` (= `asdict`). -/
def TrainingValLoopPorgress.state_dict (v : TrainingValLoopPorgress) :
    TrainingValLoopPorgressState :=
  { epoch := some v.epoch.state_dict,
    should_check_val := some v.should_check_val }

/-- `TrainingValLoopPorgress.__setstate__`: restores `epoch` then
`should_check_val`. -/
def TrainingValLoopPorgress.setstate (v : TrainingValLoopPorgress)
    (s : TrainingValLoopPorgressState) : Except String TrainingValLoopPorgress := do
  let se ← req s.epoch "epoch"
  let e ← EpochProgress.setstate v.epoch se
  let scv ← req s.should_check_val "should_check_val"
  pure { epoch := e, should_check_val := scv }

/-- `TrainingValLoopPorgress.from_state_dict`. -/
def TrainingValLoopPorgress.from_state_dict (s : TrainingValLoopPorgressState) :
    Except String TrainingValLoopPorgress :=
  TrainingValLoopPorgress.setstate {} s

/-- `TrainingEpochProgress`: an `EpochProgress` plus nested
`optim : OptimizationProgress` and `val : TrainingValLoopPorgress`. -/
structure TrainingEpochProgress extends EpochProgress where
  optim : OptimizationProgress := {}
  val : TrainingValLoopPorgress := {}
deriving DecidableEq, Repr

/-- `TrainingEpochProgress` inherits `EpochProgress.reset_on_epoch`:
resets only `batch.current`. -/
def TrainingEpochProgress.reset_on_epoch (e : TrainingEpochProgress) :
    TrainingEpochProgress :=
  { e with toEpochProgress := e.toEpochProgress.reset_on_epoch }

/-- `TrainingEpochProgress` inherits `Progress.increment_completed` through
`EpochProgress`. -/
def TrainingEpochProgress.increment_completed (e : TrainingEpochProgress) :
    TrainingEpochProgress :=
  { e with toProgress := e.toProgress.increment_completed }

/-- A persisted `TrainingEpochProgress` mapping. -/
structure TrainingEpochProgressState where
  total : Option TrackerState := none
  current : Option TrackerState := none
  dataloader_idx : Option Int := none
  batch : Option ProgressState := none
  optim : Option OptimizationProgressState := none
  val : Option TrainingValLoopPorgressState := none
deriving DecidableEq, Repr

/-- `TrainingEpochProgress.state_dict` (= `asdict`). -/
def TrainingEpochProgress.state_dict (e : TrainingEpochProgress) :
    TrainingEpochProgressState :=
  { total := some e.total.state_dict, current := some e.current.state_dict,
    dataloader_idx := some e.dataloader_idx,
    batch := some (Progress.state_dict e.batch),
    optim := some e.optim.state_dict, val := some e.val.state_dict }

/-- `TrainingEpochProgress.__setstate__`: `super().__setstate__(state)`
(the `EpochProgress` restore), then restore `optim` and `val`. -/
def TrainingEpochProgress.setstate (e : TrainingEpochProgress)
    (s : TrainingEpochProgressState) : Except String TrainingEpochProgress := do
  let ep ← EpochProgress.setstate e.toEpochProgress
    { total := s.total, current := s.current,
      dataloader_idx := s.dataloader_idx, batch := s.batch }
  let so ← req s.optim "optim"
  let op ← OptimizationProgress.setstate e.optim so
  let sv ← req s.val "val"
  let v ← TrainingValLoopPorgress.setstate e.val sv
  pure { e with toEpochProgress := ep, optim := op, val := v }

/-- `TrainingEpochProgress.from_state_dict`. -/
def TrainingEpochProgress.from_state_dict (s : TrainingEpochProgressState) :
    Except String TrainingEpochProgress :=
  TrainingEpochProgress.setstate {} s

/-- `FitLoopProgress`: an `EpochLoopProgress` whose `epoch` field is
specialized to a `TrainingEpochProgress`; root of the tree. -/
structure FitLoopProgress where
  epoch : TrainingEpochProgress := {}
deriving DecidableEq, Repr

/-- Derived property `total_epoch_completed` (inherited from
`EpochLoopProgress`) = `epoch.total.completed`. -/
def FitLoopProgress.total_epoch_completed (f : FitLoopProgress) : Option Int :=
  f.epoch.total.completed

/-- Derived property `total_optimizer_step_completed` =
`epoch.optim.optimizer.step.total.completed`. -/
def FitLoopProgress.total_optimizer_step_completed (f : FitLoopProgress) :
    Option Int :=
  f.epoch.optim.optimizer.step.total.completed

/-- `FitLoopProgress.reset_on_epoch` (overridden): `epoch.reset_on_epoch()`
then `epoch.optim.reset_on_epoch()`; deliberately does not reset
`epoch.current`. -/
def FitLoopProgress.reset_on_epoch (f : FitLoopProgress) : FitLoopProgress :=
  let e := f.epoch.reset_on_epoch
  { f with epoch := { e with optim := e.optim.reset_on_epoch } }

/-- `FitLoopProgress.increment_epoch_completed` (inherited from
`EpochLoopProgress`, dispatching to the overridden `reset_on_epoch`):
`epoch.increment_completed()` then `self.reset_on_epoch()`. -/
def FitLoopProgress.increment_epoch_completed (f : FitLoopProgress) :
    FitLoopProgress :=
  FitLoopProgress.reset_on_epoch { f with epoch := f.epoch.increment_completed }

/-- A persisted `FitLoopProgress` mapping. -/
structure FitLoopProgressState where
  epoch : Option TrainingEpochProgressState := none
deriving DecidableEq, Repr

/-- `FitLoopProgress.state_dict` (= `asdict`). -/
def FitLoopProgress.state_dict (f : FitLoopProgress) : FitLoopProgressState :=
  { epoch := some f.epoch.state_dict }

/-- `FitLoopProgress.__setstate__` (inherited from `EpochLoopProgress`;
`self.epoch.__setstate__` dispatches to `TrainingEpochProgress`). -/
def FitLoopProgress.setstate (f : FitLoopProgress) (s : FitLoopProgressState) :
    Except String FitLoopProgress := do
  let se ← req s.epoch "epoch"
  let e ← TrainingEpochProgress.setstate f.epoch se
  pure { epoch := e }

/-- `FitLoopProgress.from_state_dict`. -/
def FitLoopProgress.from_state_dict (s : FitLoopProgressState) :
    Except String FitLoopProgress :=
  FitLoopProgress.setstate {} s

/-- Predicate: an `Except` computation raised. -/
def isErr {α : Type} : Except String α → Bool
  | Except.error _ => true
  | Except.ok _ => false

/-! ### Helper lemmas on `Tracker` -/

theorem Tracker.reset_get_disabled (t : Tracker) (k : Stage) (h : t.get k = none) :
    t.reset.get k = none := by
  rcases t with ⟨r, s, p, c⟩
  cases k <;> simp_all [Tracker.get, Tracker.reset] <;>
    rcases r with _ | r <;> rcases s with _ | s <;> rcases p with _ | p <;>
    rcases c with _ | c <;> simp_all

theorem Tracker.reset_get_enabled (t : Tracker) (k : Stage) (h : t.get k ≠ none) :
    t.reset.get k = some 0 := by
  rcases t with ⟨r, s, p, c⟩
  cases k <;>
    rcases r with _ | r <;> rcases s with _ | s <;> rcases p with _ | p <;>
    rcases c with _ | c <;> simp_all [Tracker.get, Tracker.reset]

theorem Tracker.reset_on_restart_get_enabled (t : Tracker) (k : Stage)
    (h : t.get k ≠ none) :
    t.reset_on_restart.get k =
      (if t.processed = none then t.completed else t.processed) := by
  rcases t with ⟨r, s, p, c⟩
  cases k <;>
    rcases r with _ | r <;> rcases s with _ | s <;> rcases p with _ | p <;>
    rcases c with _ | c <;> simp_all [Tracker.get, Tracker.reset_on_restart]

theorem Tracker.reset_on_restart_get_disabled (t : Tracker) (k : Stage)
    (h : t.get k = none) : t.reset_on_restart.get k = none := by
  rcases t with ⟨r, s, p, c⟩
  cases k <;>
    rcases r with _ | r <;> rcases s with _ | s <;> rcases p with _ | p <;>
    rcases c with _ | c <;> simp_all [Tracker.get, Tracker.reset_on_restart]

theorem Tracker.setattr_isErr_iff (t : Tracker) (k : Stage) (v : Option Int) :
    isErr (t.setattr k v) = true ↔ t.get k = none := by
  unfold Tracker.setattr
  by_cases h : t.get k = none <;> simp [h, isErr]

theorem Tracker.setattr_enabled (t : Tracker) (k : Stage) (v : Option Int)
    (h : t.get k ≠ none) : t.setattr k v = Except.ok (t.set k v) := by
  simp [Tracker.setattr, h]

theorem Tracker.reset_samePartition (t : Tracker) : t.reset.samePartition t := by
  rcases t with ⟨r, s, p, c⟩
  rcases r with _ | r <;> rcases s with _ | s <;> rcases p with _ | p <;>
    rcases c with _ | c <;> simp [Tracker.reset, Tracker.samePartition]

/-! ### Claim theorems -/

/-- C1: for every composite type in the tree (`Progress`, `EpochProgress`,
`OptimizerProgress`, `OptimizationProgress`, `EpochLoopProgress`,
`TrainingValLoopPorgress`, `TrainingEpochProgress`, `FitLoopProgress`) and
every value `x`, `from_state_dict (state_dict x)` succeeds and returns a
value equal to `x` - hence observationally equal in every enabled counter
field and in every derived property (`optimizer_steps`, `scheduler_steps`,
`total_epoch_completed`, `total_optimizer_step_completed`). -/
theorem round_trip_all :
    (∀ p : Progress, Progress.from_state_dict p.state_dict = Except.ok p) ∧
    (∀ e : EpochProgress,
      EpochProgress.from_state_dict e.state_dict = Except.ok e) ∧
    (∀ o : OptimizerProgress,
      OptimizerProgress.from_state_dict o.state_dict = Except.ok o) ∧
    (∀ o : OptimizationProgress,
      OptimizationProgress.from_state_dict o.state_dict = Except.ok o) ∧
    (∀ l : EpochLoopProgress,
      EpochLoopProgress.from_state_dict l.state_dict = Except.ok l) ∧
    (∀ v : TrainingValLoopPorgress,
      TrainingValLoopPorgress.from_state_dict v.state_dict = Except.ok v) ∧
    (∀ e : TrainingEpochProgress,
      TrainingEpochProgress.from_state_dict e.state_dict = Except.ok e) ∧
    (∀ f : FitLoopProgress,
      FitLoopProgress.from_state_dict f.state_dict = Except.ok f) :=
  ⟨fun _ => rfl, fun _ => rfl, fun _ => rfl, fun _ => rfl,
   fun _ => rfl, fun _ => rfl, fun _ => rfl, fun _ => rfl⟩

/-- C2 counterexample: the claim "no code path can store a value into a
disabled field without raising" is false.  The restore path
(`__setstate__` = `self.__dict__.update(state)`) bypasses the
`__setattr__` guard: on a `Tracker` whose `processed` field is disabled,
restoring a mapping that carries `processed = 5` silently stores `5` into
the disabled field and raises nothing (`Tracker.setstate` is a total
function returning the updated tracker). -/
theorem setstate_bypasses_guard :
    ({ ready := some 0, started := some 0, processed := none,
       completed := some 0 : Tracker }).processed = none ∧
    (Tracker.setstate
      { ready := some 0, started := some 0, processed := none,
        completed := some 0 }
      { ready := some (some 0), started := some (some 0),
        processed := some (some 5), completed := some (some 0) }).processed
      = some 5 :=
  ⟨rfl, rfl⟩

/-- C2 amended: the disabled-field-write guard fires on every attribute
assignment (`__setattr__` raises exactly when the targeted field is
disabled), and the internal assignments of `reset()` and
`reset_on_restart()` never store a value into a disabled field; however the
restore path (`from_state_dict` / `__setstate__`) writes the instance
dictionary directly, bypassing the guard, and can store a value into a
disabled field without raising (see the counterexample). -/
theorem guard_on_attribute_writes :
    (∀ (t : Tracker) (k : Stage) (v : Option Int),
      isErr (t.setattr k v) = true ↔ t.get k = none) ∧
    (∀ (t : Tracker) (k : Stage), t.get k = none → t.reset.get k = none) ∧
    (∀ (t : Tracker) (k : Stage), t.get k = none →
      t.reset_on_restart.get k = none) :=
  ⟨Tracker.setattr_isErr_iff, Tracker.reset_get_disabled,
   Tracker.reset_on_restart_get_disabled⟩

/-- C2 amended witness: instantiation at a concrete tracker whose
`processed` field is disabled. -/
theorem guard_on_attribute_writes_witness :
    (isErr (Tracker.setattr
        { ready := some 1, started := some 1, processed := none,
          completed := some 1 } Stage.processed (some 9)) = true ↔
      Tracker.get
        { ready := some 1, started := some 1, processed := none,
          completed := some 1 } Stage.processed = none) ∧
    Tracker.get
      (Tracker.reset
        { ready := some 1, started := some 1, processed := none,
          completed := some 1 }) Stage.processed = none ∧
    Tracker.get
      (Tracker.reset_on_restart
        { ready := some 1, started := some 1, processed := none,
          completed := some 1 }) Stage.processed = none :=
  ⟨guard_on_attribute_writes.1 _ _ _,
   guard_on_attribute_writes.2.1 _ _ (by decide),
   guard_on_attribute_writes.2.2 _ _ (by decide)⟩

/-! ### Bind helpers for error propagation in `Except` -/

theorem isErr_bind_right {α β : Type} (x : Except String α)
    (f : α → Except String β) (h : ∀ a, isErr (f a) = true) :
    isErr (x >>= f) = true := by
  cases x with
  | error e => rfl
  | ok a => exact h a

theorem isErr_bind_left {α β : Type} (x : Except String α)
    (f : α → Except String β) (h : isErr x = true) :
    isErr (x >>= f) = true := by
  cases x with
  | error e => rfl
  | ok a => simp [isErr] at h

/-- C3 counterexample: the claim "a Tracker mapping missing one of its four
stage fields raises a hard malformed-restore failure" is false.
`Tracker.__setstate__` is `self.__dict__.update(state)`: restoring from a
mapping that only carries `ready = 5` cannot fail at all - it silently
produces a tracker whose `ready` is restored and whose other three
counters are the freshly-constructed defaults. -/
theorem tracker_missing_key_silent :
    Tracker.from_state_dict { ready := some (some 5) } =
      { ready := some 5, started := some 0, processed := some 0,
        completed := some 0 } :=
  rfl

theorem exc_bind_ok {α β : Type} (a : α) (f : α → Except String β) :
    (Except.ok a >>= f) = f a := rfl

theorem exc_bind_error {α β : Type} (e : String) (f : α → Except String β) :
    ((Except.error e : Except String α) >>= f) = Except.error e := rfl

theorem exc_bind_assoc {α β γ : Type} (x : Except String α)
    (f : α → Except String β) (g : β → Except String γ) :
    ((x >>= f) >>= g) = x >>= fun a => f a >>= g := by
  cases x <;> rfl

set_option maxHeartbeats 2000000 in
/-- C3 amended: restoring a composite type from a mapping that is missing
one of its expected top-level keys raises a hard `KeyError` (`Progress`
without `total` or `current`, `EpochProgress` without `batch` or
`dataloader_idx`, and so on for every composite); but a `Tracker` mapping
missing one of its four stage fields does NOT fail: `__dict__.update`
silently leaves the missing fields at their freshly-constructed defaults,
so the counters are only partially restored. -/
theorem restore_missing_key :
    (∀ s : ProgressState, (s.total = none ∨ s.current = none) →
      isErr (Progress.from_state_dict s) = true) ∧
    (∀ s : EpochProgressState,
      (s.total = none ∨ s.current = none ∨ s.dataloader_idx = none ∨
        s.batch = none) →
      isErr (EpochProgress.from_state_dict s) = true) ∧
    (∀ s : OptimizerProgressState, (s.step = none ∨ s.zero_grad = none) →
      isErr (OptimizerProgress.from_state_dict s) = true) ∧
    (∀ s : OptimizationProgressState,
      (s.optimizer_idx = none ∨ s.optimizer = none ∨ s.scheduler = none) →
      isErr (OptimizationProgress.from_state_dict s) = true) ∧
    (∀ s : EpochLoopProgressState, s.epoch = none →
      isErr (EpochLoopProgress.from_state_dict s) = true) ∧
    (∀ s : TrainingValLoopPorgressState,
      (s.epoch = none ∨ s.should_check_val = none) →
      isErr (TrainingValLoopPorgress.from_state_dict s) = true) ∧
    (∀ s : TrainingEpochProgressState,
      (s.total = none ∨ s.current = none ∨ s.dataloader_idx = none ∨
        s.batch = none ∨ s.optim = none ∨ s.val = none) →
      isErr (TrainingEpochProgress.from_state_dict s) = true) ∧
    (∀ s : FitLoopProgressState, s.epoch = none →
      isErr (FitLoopProgress.from_state_dict s) = true) ∧
    (∀ s : TrackerState,
      (s.ready = none → (Tracker.from_state_dict s).ready = some 0) ∧
      (s.started = none → (Tracker.from_state_dict s).started = some 0) ∧
      (s.processed = none → (Tracker.from_state_dict s).processed = some 0) ∧
      (s.completed = none → (Tracker.from_state_dict s).completed = some 0)) := by
  refine ⟨?_, ?_, ?_, ?_, ?_, ?_, ?_, ?_, ?_⟩
  · intro s h
    rcases s with ⟨st, sc⟩
    rcases h with h | h <;> simp only at h <;> subst h <;>
      simp only [Progress.from_state_dict, Progress.setstate, req,
        exc_bind_assoc, exc_bind_ok, exc_bind_error] <;>
      (repeat (first | rfl | refine isErr_bind_right _ _ fun _ => ?_))
  · intro s h
    rcases s with ⟨st, sc, sdl, sb⟩
    rcases h with h | h | h | h <;> simp only at h <;> subst h <;>
      simp only [EpochProgress.from_state_dict, EpochProgress.setstate,
        Progress.setstate, req, exc_bind_assoc, exc_bind_ok, exc_bind_error] <;>
      (repeat (first | rfl | refine isErr_bind_right _ _ fun _ => ?_))
  · intro s h
    rcases s with ⟨ss, sz⟩
    rcases h with h | h <;> simp only at h <;> subst h <;>
      simp only [OptimizerProgress.from_state_dict, OptimizerProgress.setstate,
        Progress.setstate, req, exc_bind_assoc, exc_bind_ok, exc_bind_error] <;>
      (repeat (first | rfl | refine isErr_bind_right _ _ fun _ => ?_))
  · intro s h
    rcases s with ⟨si, so, ssch⟩
    rcases h with h | h | h <;> simp only at h <;> subst h <;>
      simp only [OptimizationProgress.from_state_dict,
        OptimizationProgress.setstate, OptimizerProgress.setstate,
        Progress.setstate, req, exc_bind_assoc, exc_bind_ok, exc_bind_error] <;>
      (repeat (first | rfl | refine isErr_bind_right _ _ fun _ => ?_))
  · intro s h
    rcases s with ⟨se⟩
    simp only at h
    subst h
    rfl
  · intro s h
    rcases s with ⟨se, scv⟩
    rcases h with h | h <;> simp only at h <;> subst h <;>
      simp only [TrainingValLoopPorgress.from_state_dict,
        TrainingValLoopPorgress.setstate, EpochProgress.setstate,
        Progress.setstate, req, exc_bind_assoc, exc_bind_ok, exc_bind_error] <;>
      (repeat (first | rfl | refine isErr_bind_right _ _ fun _ => ?_))
  · intro s h
    rcases s with ⟨st, sc, sdl, sb, so, sv⟩
    rcases h with h | h | h | h | h | h <;> simp only at h <;> subst h <;>
      simp only [TrainingEpochProgress.from_state_dict,
        TrainingEpochProgress.setstate, EpochProgress.setstate,
        Progress.setstate, OptimizationProgress.setstate,
        OptimizerProgress.setstate, TrainingValLoopPorgress.setstate, req,
        exc_bind_assoc, exc_bind_ok, exc_bind_error] <;>
      (repeat (first | rfl | refine isErr_bind_right _ _ fun _ => ?_))
  · intro s h
    rcases s with ⟨se⟩
    simp only at h
    subst h
    rfl
  · intro s
    refine ⟨?_, ?_, ?_, ?_⟩ <;> intro h <;>
      simp [Tracker.from_state_dict, Tracker.setstate, h]

/-- C3 amended witness: a `Progress` mapping with both keys missing fails;
a `Tracker` mapping with every key missing leaves `ready` at its default. -/
theorem restore_missing_key_witness :
    isErr (Progress.from_state_dict {}) = true ∧
    (Tracker.from_state_dict {}).ready = some 0 :=
  ⟨restore_missing_key.1 {} (Or.inl rfl),
   (restore_missing_key.2.2.2.2.2.2.2.2 {}).1 rfl⟩

/-- C4: for every `Tracker` and every enabled field, after
`reset_on_restart()` the field equals the pre-call value of `processed`
when `processed` is enabled, and the pre-call value of `completed` when
`processed` is disabled. -/
theorem reset_on_restart_carries_forward :
    ∀ (t : Tracker) (k : Stage), t.get k ≠ none →
      (t.processed ≠ none → t.reset_on_restart.get k = t.processed) ∧
      (t.processed = none → t.reset_on_restart.get k = t.completed) := by
  intro t k h
  constructor <;> intro hp <;>
    rw [Tracker.reset_on_restart_get_enabled t k h] <;> simp [hp]

/-- C4 witness: on `Tracker(ready=1, started=2, processed=3, completed=4)`
(all enabled), `reset_on_restart` sets `ready` to the pre-call `processed`
value `3`. -/
theorem reset_on_restart_carries_forward_witness :
    (Tracker.reset_on_restart
      { ready := some 1, started := some 2, processed := some 3,
        completed := some 4 }).get Stage.ready = some 3 :=
  (reset_on_restart_carries_forward
    { ready := some 1, started := some 2, processed := some 3,
      completed := some 4 } Stage.ready (by decide)).1 (by decide)

/-- C5: writing any value to a disabled field of any `Tracker` raises the
disabled-field-write (`AttributeError`) error; in particular, on a freshly
constructed `OptimizerProgress`, setting `step.total.processed` to any
integer raises it, since `processed` is disabled by that type's factory
configuration. -/
theorem disabled_write_raises :
    (∀ (t : Tracker) (k : Stage) (v : Option Int), t.get k = none →
      t.setattr k v =
        Except.error "AttributeError: the attribute is meant to be unused") ∧
    (∀ v : Int,
      ({} : OptimizerProgress).step.total.setattr Stage.processed (some v) =
        Except.error "AttributeError: the attribute is meant to be unused") := by
  constructor
  · intro t k v h
    simp [Tracker.setattr, h]
  · intro v
    rfl

/-- C5 witness: writing `42` to the disabled `ready` field errs, and so
does writing `7` to `step.total.processed` of a fresh `OptimizerProgress`. -/
theorem disabled_write_raises_witness :
    Tracker.setattr
      { ready := none, started := some 0, processed := some 0,
        completed := some 0 } Stage.ready (some 42) =
      Except.error "AttributeError: the attribute is meant to be unused" ∧
    ({} : OptimizerProgress).step.total.setattr Stage.processed (some 7) =
      Except.error "AttributeError: the attribute is meant to be unused" :=
  ⟨disabled_write_raises.1 _ Stage.ready (some 42) rfl,
   disabled_write_raises.2 7⟩

/-- C10: `Tracker.__setattr__` raises the attribute-unused error if and
only if the targeted field's current value is the null marker; assigning
the null marker to an enabled field succeeds, so an active field can
transition to disabled through the public write interface. -/
theorem setattr_error_iff_disabled :
    ∀ (t : Tracker) (k : Stage) (v : Option Int),
      (isErr (t.setattr k v) = true ↔ t.get k = none) ∧
      (t.get k ≠ none → t.setattr k none = Except.ok (t.set k none)) :=
  fun t k v =>
    ⟨Tracker.setattr_isErr_iff t k v,
     fun h => Tracker.setattr_enabled t k none h⟩

/-- C10 witness: on a tracker whose `ready` field holds `3` (enabled),
assigning the null marker to `ready` succeeds and disables the field. -/
theorem setattr_error_iff_disabled_witness :
    Tracker.setattr
      { ready := some 3, started := some 0, processed := some 0,
        completed := some 0 } Stage.ready none =
      Except.ok (Tracker.set
        { ready := some 3, started := some 0, processed := some 0,
          completed := some 0 } Stage.ready none) :=
  (setattr_error_iff_disabled _ Stage.ready (some 0)).2 (by decide)

/-! ### Increment iteration helpers -/

theorem increment_ready_iterate (p : Progress) (a b : Int) (n : Nat)
    (ht : p.total.ready = some a) (hc : p.current.ready = some b) :
    ((Progress.increment_ready)^[n] p).total.ready = some (a + n) ∧
    ((Progress.increment_ready)^[n] p).current.ready = some (b + n) := by
  induction n generalizing p a b with
  | zero => simp [ht, hc]
  | succ n ih =>
    rw [Function.iterate_succ_apply]
    have h1 : p.increment_ready.total.ready = some (a + 1) := by
      simp [Progress.increment_ready, ht, hc]
    have h2 : p.increment_ready.current.ready = some (b + 1) := by
      simp [Progress.increment_ready, ht, hc]
    obtain ⟨ih1, ih2⟩ := ih _ _ _ h1 h2
    constructor
    · rw [ih1]
      congr 1
      push_cast
      ring
    · rw [ih2]
      congr 1
      push_cast
      ring

theorem increment_ready_disabled (p : Progress)
    (h : p.total.ready = none ∨ p.current.ready = none) :
    p.increment_ready = p := by
  rcases h with h | h
  · cases hc : p.current.ready <;> simp [Progress.increment_ready, h, hc]
  · cases ht : p.total.ready <;> simp [Progress.increment_ready, h, ht]

theorem increment_started_iterate (p : Progress) (a b : Int) (n : Nat)
    (ht : p.total.started = some a) (hc : p.current.started = some b) :
    ((Progress.increment_started)^[n] p).total.started = some (a + n) ∧
    ((Progress.increment_started)^[n] p).current.started = some (b + n) := by
  induction n generalizing p a b with
  | zero => simp [ht, hc]
  | succ n ih =>
    rw [Function.iterate_succ_apply]
    have h1 : p.increment_started.total.started = some (a + 1) := by
      simp [Progress.increment_started, ht, hc]
    have h2 : p.increment_started.current.started = some (b + 1) := by
      simp [Progress.increment_started, ht, hc]
    obtain ⟨ih1, ih2⟩ := ih _ _ _ h1 h2
    constructor
    · rw [ih1]
      congr 1
      push_cast
      ring
    · rw [ih2]
      congr 1
      push_cast
      ring

theorem increment_started_disabled (p : Progress)
    (h : p.total.started = none ∨ p.current.started = none) :
    p.increment_started = p := by
  rcases h with h | h
  · cases hc : p.current.started <;> simp [Progress.increment_started, h, hc]
  · cases ht : p.total.started <;> simp [Progress.increment_started, h, ht]

theorem increment_processed_iterate (p : Progress) (a b : Int) (n : Nat)
    (ht : p.total.processed = some a) (hc : p.current.processed = some b) :
    ((Progress.increment_processed)^[n] p).total.processed = some (a + n) ∧
    ((Progress.increment_processed)^[n] p).current.processed = some (b + n) := by
  induction n generalizing p a b with
  | zero => simp [ht, hc]
  | succ n ih =>
    rw [Function.iterate_succ_apply]
    have h1 : p.increment_processed.total.processed = some (a + 1) := by
      simp [Progress.increment_processed, ht, hc]
    have h2 : p.increment_processed.current.processed = some (b + 1) := by
      simp [Progress.increment_processed, ht, hc]
    obtain ⟨ih1, ih2⟩ := ih _ _ _ h1 h2
    constructor
    · rw [ih1]
      congr 1
      push_cast
      ring
    · rw [ih2]
      congr 1
      push_cast
      ring

theorem increment_processed_disabled (p : Progress)
    (h : p.total.processed = none ∨ p.current.processed = none) :
    p.increment_processed = p := by
  rcases h with h | h
  · cases hc : p.current.processed <;> simp [Progress.increment_processed, h, hc]
  · cases ht : p.total.processed <;> simp [Progress.increment_processed, h, ht]

theorem increment_completed_iterate (p : Progress) (a b : Int) (n : Nat)
    (ht : p.total.completed = some a) (hc : p.current.completed = some b) :
    ((Progress.increment_completed)^[n] p).total.completed = some (a + n) ∧
    ((Progress.increment_completed)^[n] p).current.completed = some (b + n) := by
  induction n generalizing p a b with
  | zero => simp [ht, hc]
  | succ n ih =>
    rw [Function.iterate_succ_apply]
    have h1 : p.increment_completed.total.completed = some (a + 1) := by
      simp [Progress.increment_completed, ht, hc]
    have h2 : p.increment_completed.current.completed = some (b + 1) := by
      simp [Progress.increment_completed, ht, hc]
    obtain ⟨ih1, ih2⟩ := ih _ _ _ h1 h2
    constructor
    · rw [ih1]
      congr 1
      push_cast
      ring
    · rw [ih2]
      congr 1
      push_cast
      ring

theorem increment_completed_disabled (p : Progress)
    (h : p.total.completed = none ∨ p.current.completed = none) :
    p.increment_completed = p := by
  rcases h with h | h
  · cases hc : p.current.completed <;> simp [Progress.increment_completed, h, hc]
  · cases ht : p.total.completed <;> simp [Progress.increment_completed, h, ht]

/-- C6: for any `Progress`, calling `increment_completed()` n times
increases both `total.completed` and `current.completed` by exactly n when
`completed` is enabled on both `Tracker`s; when it is disabled on either,
the call is a silent no-op (no mutation, no error - the embedding of the
increments is total, so no error is even possible); and the same holds
for `increment_ready` / `increment_started` / `increment_processed` over
their matching fields. -/
theorem increment_n_times :
    (∀ (p : Progress) (a b : Int) (n : Nat),
      p.total.ready = some a → p.current.ready = some b →
      ((Progress.increment_ready)^[n] p).total.ready = some (a + n) ∧
      ((Progress.increment_ready)^[n] p).current.ready = some (b + n)) ∧
    (∀ (p : Progress) (n : Nat),
      (p.total.ready = none ∨ p.current.ready = none) →
      (Progress.increment_ready)^[n] p = p) ∧
    (∀ (p : Progress) (a b : Int) (n : Nat),
      p.total.started = some a → p.current.started = some b →
      ((Progress.increment_started)^[n] p).total.started = some (a + n) ∧
      ((Progress.increment_started)^[n] p).current.started = some (b + n)) ∧
    (∀ (p : Progress) (n : Nat),
      (p.total.started = none ∨ p.current.started = none) →
      (Progress.increment_started)^[n] p = p) ∧
    (∀ (p : Progress) (a b : Int) (n : Nat),
      p.total.processed = some a → p.current.processed = some b →
      ((Progress.increment_processed)^[n] p).total.processed = some (a + n) ∧
      ((Progress.increment_processed)^[n] p).current.processed = some (b + n)) ∧
    (∀ (p : Progress) (n : Nat),
      (p.total.processed = none ∨ p.current.processed = none) →
      (Progress.increment_processed)^[n] p = p) ∧
    (∀ (p : Progress) (a b : Int) (n : Nat),
      p.total.completed = some a → p.current.completed = some b →
      ((Progress.increment_completed)^[n] p).total.completed = some (a + n) ∧
      ((Progress.increment_completed)^[n] p).current.completed = some (b + n)) ∧
    (∀ (p : Progress) (n : Nat),
      (p.total.completed = none ∨ p.current.completed = none) →
      (Progress.increment_completed)^[n] p = p) :=
  ⟨increment_ready_iterate,
   fun p n h => Function.iterate_fixed (increment_ready_disabled p h) n,
   increment_started_iterate,
   fun p n h => Function.iterate_fixed (increment_started_disabled p h) n,
   increment_processed_iterate,
   fun p n h => Function.iterate_fixed (increment_processed_disabled p h) n,
   increment_completed_iterate,
   fun p n h => Function.iterate_fixed (increment_completed_disabled p h) n⟩

/-- C6 witness: on a fresh `Progress`, three `increment_completed` calls
take `total.completed` and `current.completed` to 3; on the `step`
progress of a fresh `OptimizerProgress` (whose `processed` stage is
disabled), five `increment_processed` calls change nothing. -/
theorem increment_n_times_witness :
    (((Progress.increment_completed)^[3] {}).total.completed = some (0 + (3 : Nat)) ∧
      ((Progress.increment_completed)^[3] {}).current.completed = some (0 + (3 : Nat))) ∧
    (Progress.increment_processed)^[5] ({} : OptimizerProgress).step =
      ({} : OptimizerProgress).step :=
  ⟨increment_n_times.2.2.2.2.2.2.1 {} 0 0 3 rfl rfl,
   increment_n_times.2.2.2.2.2.1 ({} : OptimizerProgress).step 5 (Or.inl rfl)⟩

/-- C7: `FitLoopProgress.reset_on_epoch()` leaves `epoch.current` (hence
`epoch.current.completed`) and `epoch.total` unchanged, while setting
every enabled field of `epoch.optim.scheduler.current`,
`epoch.optim.optimizer.step.current`,
`epoch.optim.optimizer.zero_grad.current`, and `epoch.batch.current` to 0;
it deliberately does not reset `epoch.current`. -/
theorem fit_reset_on_epoch_frame :
    ∀ f : FitLoopProgress,
      f.reset_on_epoch.epoch.current = f.epoch.current ∧
      f.reset_on_epoch.epoch.total = f.epoch.total ∧
      (∀ k : Stage, f.epoch.optim.scheduler.current.get k ≠ none →
        f.reset_on_epoch.epoch.optim.scheduler.current.get k = some 0) ∧
      (∀ k : Stage, f.epoch.optim.optimizer.step.current.get k ≠ none →
        f.reset_on_epoch.epoch.optim.optimizer.step.current.get k = some 0) ∧
      (∀ k : Stage, f.epoch.optim.optimizer.zero_grad.current.get k ≠ none →
        f.reset_on_epoch.epoch.optim.optimizer.zero_grad.current.get k = some 0) ∧
      (∀ k : Stage, f.epoch.batch.current.get k ≠ none →
        f.reset_on_epoch.epoch.batch.current.get k = some 0) := by
  intro f
  refine ⟨rfl, rfl, ?_, ?_, ?_, ?_⟩
  · intro k hk
    exact Tracker.reset_get_enabled _ k hk
  · intro k hk
    exact Tracker.reset_get_enabled _ k hk
  · intro k hk
    exact Tracker.reset_get_enabled _ k hk
  · intro k hk
    exact Tracker.reset_get_enabled _ k hk

/-- C7 witness: on a fresh `FitLoopProgress`, `reset_on_epoch` keeps
`epoch.current` and zeroes the enabled `ready` field of
`epoch.optim.optimizer.step.current`. -/
theorem fit_reset_on_epoch_frame_witness :
    (FitLoopProgress.reset_on_epoch {}).epoch.current =
      ({} : FitLoopProgress).epoch.current ∧
    (FitLoopProgress.reset_on_epoch
      {}).epoch.optim.optimizer.step.current.get Stage.ready = some 0 :=
  ⟨(fit_reset_on_epoch_frame {}).1,
   (fit_reset_on_epoch_frame {}).2.2.2.1 Stage.ready (by decide)⟩

/-- C8: `increment_epoch_completed()` is exactly "advance the epoch's
completed stage via `increment_completed` (both `total` and `current`,
when enabled), then immediately invoke `self.reset_on_epoch()`" - for the
base `EpochLoopProgress` and for its specialization `FitLoopProgress`
(whose overridden `reset_on_epoch` is the one invoked); on a
`FitLoopProgress` with enabled completed counters both advance by one, and
starting from a fresh `FitLoopProgress`, three calls yield
`total_epoch_completed == 3`. -/
theorem increment_epoch_completed_spec :
    (∀ l : EpochLoopProgress,
      l.increment_epoch_completed =
        EpochLoopProgress.reset_on_epoch
          { l with epoch :=
            { l.epoch with toProgress := l.epoch.toProgress.increment_completed } }) ∧
    (∀ f : FitLoopProgress,
      f.increment_epoch_completed =
        FitLoopProgress.reset_on_epoch
          { f with epoch := f.epoch.increment_completed }) ∧
    (∀ (f : FitLoopProgress) (a b : Int),
      f.epoch.total.completed = some a → f.epoch.current.completed = some b →
      f.increment_epoch_completed.epoch.total.completed = some (a + 1) ∧
      f.increment_epoch_completed.epoch.current.completed = some (b + 1)) ∧
    ((FitLoopProgress.increment_epoch_completed)^[3] {}).total_epoch_completed
      = some 3 := by
  refine ⟨fun _ => rfl, fun _ => rfl, ?_, by decide⟩
  intro f a b ht hc
  constructor <;>
    simp [FitLoopProgress.increment_epoch_completed,
      FitLoopProgress.reset_on_epoch, TrainingEpochProgress.reset_on_epoch,
      EpochProgress.reset_on_epoch, TrainingEpochProgress.increment_completed,
      Progress.increment_completed, ht, hc]

/-- C8 witness: one call on a fresh `FitLoopProgress` takes both completed
counters from 0 to 1. -/
theorem increment_epoch_completed_spec_witness :
    (FitLoopProgress.increment_epoch_completed {}).epoch.total.completed
      = some (0 + 1) ∧
    (FitLoopProgress.increment_epoch_completed {}).epoch.current.completed
      = some (0 + 1) :=
  increment_epoch_completed_spec.2.2.1 {} 0 0 rfl rfl

/-- C9: `total` and `current` share one enabled/disabled partition at
construction via `from_defaults` (both `Tracker`s are built from the same
overrides), and the shared partition is preserved by each of the four
increment operations, by `Tracker.reset` applied to either side (the reset
performed by every `reset_on_epoch` in the tree), and by restore from a
mapping whose `total` and `current` entries are full `Tracker` mappings
sharing one null-pattern. -/
theorem partition_preserved :
    (∀ r s pr c : Option Int,
      (Progress.from_defaults r s pr c).total.samePartition
        (Progress.from_defaults r s pr c).current) ∧
    (∀ p : Progress, p.total.samePartition p.current →
      p.increment_ready.total.samePartition p.increment_ready.current ∧
      p.increment_started.total.samePartition p.increment_started.current ∧
      p.increment_processed.total.samePartition p.increment_processed.current ∧
      p.increment_completed.total.samePartition p.increment_completed.current) ∧
    (∀ t : Tracker, t.reset.samePartition t) ∧
    (∀ p : Progress, p.total.samePartition p.current →
      p.total.samePartition p.current.reset ∧
      p.total.reset.samePartition p.current) ∧
    (∀ (p : Progress) (r1 s1 p1 c1 r2 s2 p2 c2 : Option Int) (q : Progress),
      (r1 = none ↔ r2 = none) → (s1 = none ↔ s2 = none) →
      (p1 = none ↔ p2 = none) → (c1 = none ↔ c2 = none) →
      Progress.setstate p
        { total := some { ready := some r1, started := some s1,
                          processed := some p1, completed := some c1 },
          current := some { ready := some r2, started := some s2,
                            processed := some p2, completed := some c2 } }
        = Except.ok q →
      q.total.samePartition q.current) := by
  refine ⟨?_, ?_, Tracker.reset_samePartition, ?_, ?_⟩
  · intro r s pr c
    simp [Progress.from_defaults, Tracker.samePartition]
  · intro p h
    rcases p with ⟨⟨tr, ts, tp, tc⟩, ⟨cr, cs, cp, cc⟩⟩
    refine ⟨?_, ?_, ?_, ?_⟩
    · cases tr <;> cases cr <;>
        simp_all [Progress.increment_ready, Tracker.samePartition]
    · cases ts <;> cases cs <;>
        simp_all [Progress.increment_started, Tracker.samePartition]
    · cases tp <;> cases cp <;>
        simp_all [Progress.increment_processed, Tracker.samePartition]
    · cases tc <;> cases cc <;>
        simp_all [Progress.increment_completed, Tracker.samePartition]
  · intro p h
    have h1 := Tracker.reset_samePartition p.current
    have h2 := Tracker.reset_samePartition p.total
    obtain ⟨a1, a2, a3, a4⟩ := h
    obtain ⟨b1, b2, b3, b4⟩ := h1
    obtain ⟨d1, d2, d3, d4⟩ := h2
    exact ⟨⟨(a1.trans b1.symm), (a2.trans b2.symm), (a3.trans b3.symm),
            (a4.trans b4.symm)⟩,
           ⟨(d1.trans a1), (d2.trans a2), (d3.trans a3), (d4.trans a4)⟩⟩
  · intro p r1 s1 p1 c1 r2 s2 p2 c2 q hr hs hp hc heq
    have hq : q = { p with
        total := { ready := r1, started := s1, processed := p1, completed := c1 },
        current := { ready := r2, started := s2, processed := p2, completed := c2 } } := by
      simpa [Progress.setstate, Tracker.setstate, req, exc_bind_ok]
        using heq.symm
    subst hq
    exact ⟨hr, hs, hp, hc⟩

/-- C9 witness: instantiation with the scheduler-style partition
(`started` and `processed` disabled) on both sides, incrementing and
resetting, and a restore whose two entries share that partition. -/
theorem partition_preserved_witness :
    (Progress.from_defaults (some 0) none none (some 0)).total.samePartition
      (Progress.from_defaults (some 0) none none (some 0)).current ∧
    (Progress.from_defaults (some 0) none none
        (some 0)).increment_ready.total.samePartition
      (Progress.from_defaults (some 0) none none
        (some 0)).increment_ready.current ∧
    (Progress.from_defaults (some 0) none none (some 0)).total.samePartition
      (Progress.from_defaults (some 0) none none (some 0)).current.reset ∧
    (∀ q : Progress,
      Progress.setstate {}
        { total := some { ready := some (some 4), started := some none,
                          processed := some none, completed := some (some 2) },
          current := some { ready := some (some 1), started := some none,
                            processed := some none, completed := some (some 0) } }
        = Except.ok q →
      q.total.samePartition q.current) :=
  ⟨partition_preserved.1 (some 0) none none (some 0),
   (partition_preserved.2.1 _
     (partition_preserved.1 (some 0) none none (some 0))).1,
   (partition_preserved.2.2.2.1 _
     (partition_preserved.1 (some 0) none none (some 0))).1,
   fun q hq => partition_preserved.2.2.2.2 {} (some 4) none none (some 2)
     (some 1) none none (some 0) q (by simp) (by simp) (by simp) (by simp) hq⟩
